import Mathlib

set_option linter.unusedVariables false

/-
Verification of the capability-profile registry and runtime resolver in
src/cub/arch_device_props.cuh.

The file declares four base profile specializations ArchDeviceProps<100/120/200/300>,
four alias specializations that inherit a base record (350 : 300, 210 : 200,
130 : 120, 110 : 100), an unspecialized primary template that inherits
ArchDeviceProps<100>, the compile-time binding PtxDeviceProps =
ArchDeviceProps<CUB_PTX_ARCH>, and a runtime Callback chain anchored at the
baseline: each base Callback delegates upward when sm_version exceeds its own
architecture id, and otherwise invokes the supplied target with its own profile.
-/

namespace CubArch

/-- Record of the compile-time constants of one ArchDeviceProps specialization
(the enum block of each base specialization). -/
structure ArchProps where
  LOG_WARP_THREADS : Nat
  WARP_THREADS : Nat
  LOG_SMEM_BANKS : Nat
  SMEM_BANKS : Nat
  SMEM_BANK_BYTES : Nat
  SMEM_BYTES : Nat
  SMEM_ALLOC_UNIT : Nat
  REGS_BY_BLOCK : Bool
  REG_ALLOC_UNIT : Nat
  WARP_ALLOC_UNIT : Nat
  MAX_SM_THREADS : Nat
  MAX_SM_THREADBLOCKS : Nat
  MAX_BLOCK_THREADS : Nat
  MAX_SM_REGISTERS : Nat
deriving DecidableEq

/-- Enum block of ArchDeviceProps<300> (src/cub/arch_device_props.cuh lines 91-108). -/
def archProps300 : ArchProps where
  LOG_WARP_THREADS := 5
  WARP_THREADS := 1 <<< 5
  LOG_SMEM_BANKS := 5
  SMEM_BANKS := 1 <<< 5
  SMEM_BANK_BYTES := 4
  SMEM_BYTES := 48 * 1024
  SMEM_ALLOC_UNIT := 256
  REGS_BY_BLOCK := false
  REG_ALLOC_UNIT := 256
  WARP_ALLOC_UNIT := 4
  MAX_SM_THREADS := 2048
  MAX_SM_THREADBLOCKS := 16
  MAX_BLOCK_THREADS := 1024
  MAX_SM_REGISTERS := 64 * 1024

/-- Enum block of ArchDeviceProps<200> (lines 125-142). -/
def archProps200 : ArchProps where
  LOG_WARP_THREADS := 5
  WARP_THREADS := 1 <<< 5
  LOG_SMEM_BANKS := 5
  SMEM_BANKS := 1 <<< 5
  SMEM_BANK_BYTES := 4
  SMEM_BYTES := 48 * 1024
  SMEM_ALLOC_UNIT := 128
  REGS_BY_BLOCK := false
  REG_ALLOC_UNIT := 64
  WARP_ALLOC_UNIT := 2
  MAX_SM_THREADS := 1536
  MAX_SM_THREADBLOCKS := 8
  MAX_BLOCK_THREADS := 1024
  MAX_SM_REGISTERS := 32 * 1024

/-- Enum block of ArchDeviceProps<120> (lines 163-180). -/
def archProps120 : ArchProps where
  LOG_WARP_THREADS := 5
  WARP_THREADS := 1 <<< 5
  LOG_SMEM_BANKS := 4
  SMEM_BANKS := 1 <<< 4
  SMEM_BANK_BYTES := 4
  SMEM_BYTES := 16 * 1024
  SMEM_ALLOC_UNIT := 512
  REGS_BY_BLOCK := true
  REG_ALLOC_UNIT := 512
  WARP_ALLOC_UNIT := 2
  MAX_SM_THREADS := 1024
  MAX_SM_THREADBLOCKS := 8
  MAX_BLOCK_THREADS := 512
  MAX_SM_REGISTERS := 16 * 1024

/-- Enum block of ArchDeviceProps<100> (lines 201-218). -/
def archProps100 : ArchProps where
  LOG_WARP_THREADS := 5
  WARP_THREADS := 1 <<< 5
  LOG_SMEM_BANKS := 4
  SMEM_BANKS := 1 <<< 4
  SMEM_BANK_BYTES := 4
  SMEM_BYTES := 16 * 1024
  SMEM_ALLOC_UNIT := 512
  REGS_BY_BLOCK := true
  REG_ALLOC_UNIT := 256
  WARP_ALLOC_UNIT := 2
  MAX_SM_THREADS := 768
  MAX_SM_THREADBLOCKS := 8
  MAX_BLOCK_THREADS := 512
  MAX_SM_REGISTERS := 8 * 1024

/-
The generic operation in the source is a functor object T with a member
template Callback<ArchDeviceProps>() taking no run-time arguments: at the
invocation site target.template Callback<ArchDeviceProps>() it receives
exactly the resolved profile specialization and mutates the target object.
We model the target object state as a value of an arbitrary type and the
operation as a state transformer keyed by the received profile record.
-/

/-- ArchDeviceProps<300>::Callback (lines 111-115): the top of the chain;
invokes the target with the SM30 profile unconditionally. -/
def Callback300 {σ : Type} (op : ArchProps → σ → σ) (target : σ)
    (sm_version : Int) : σ :=
  op archProps300 target

/-- ArchDeviceProps<200>::Callback (lines 145-153): delegates to
ArchDeviceProps<300>::Callback when sm_version > 200, else invokes the target
with the SM20 profile. -/
def Callback200 {σ : Type} (op : ArchProps → σ → σ) (target : σ)
    (sm_version : Int) : σ :=
  if sm_version > 200 then Callback300 op target sm_version
  else op archProps200 target

/-- ArchDeviceProps<120>::Callback (lines 183-191): delegates to
ArchDeviceProps<200>::Callback when sm_version > 120, else invokes the target
with the SM12 profile. -/
def Callback120 {σ : Type} (op : ArchProps → σ → σ) (target : σ)
    (sm_version : Int) : σ :=
  if sm_version > 120 then Callback200 op target sm_version
  else op archProps120 target

/-- ArchDeviceProps<100>::Callback (lines 221-229): the baseline anchor;
delegates to ArchDeviceProps<120>::Callback when sm_version > 100, else
invokes the target with the SM10 profile. -/
def Callback100 {σ : Type} (op : ArchProps → σ → σ) (target : σ)
    (sm_version : Int) : σ :=
  if sm_version > 100 then Callback120 op target sm_version
  else op archProps100 target

/-- Runtime resolution entry point: the chain anchored at the baseline
ArchDeviceProps<100>::Callback. This is also what PtxDeviceProps::Callback
performs on the host pass (CUB_PTX_ARCH = 0: the unspecialized primary
template at lines 260-261 derives from ArchDeviceProps<100>). -/
def dispatch {σ : Type} (op : ArchProps → σ → σ) (target : σ)
    (runtimeGenerationId : Int) : σ :=
  Callback100 op target runtimeGenerationId

/-- Closed-form description of which profile the chain hands to the target:
the chain walks upward from 100 and stops at the first base whose architecture
id is not exceeded by sm_version, falling back to 300 at the top. -/
def resolvedProps (sm_version : Int) : ArchProps :=
  if sm_version > 200 then archProps300
  else if sm_version > 120 then archProps200
  else if sm_version > 100 then archProps120
  else archProps100

/-- Trace of the data handed to the target across one dispatch call: the
invocation site target.template Callback<ArchDeviceProps>() passes exactly one
profile specialization and nothing else, so each invocation record is one
ArchProps value. -/
def dispatchTrace (runtimeGenerationId : Int) : List ArchProps :=
  dispatch (fun p s => s ++ [p]) [] runtimeGenerationId

/-- Template-specialization lookup ArchDeviceProps<SM_ARCH>: the four base
specializations, the four alias specializations that inherit a base record
(lines 236-255), and the unspecialized primary template deriving from
ArchDeviceProps<100> (lines 260-261). -/
def ArchDeviceProps (SM_ARCH : Int) : ArchProps :=
  if SM_ARCH = 300 then archProps300
  else if SM_ARCH = 200 then archProps200
  else if SM_ARCH = 120 then archProps120
  else if SM_ARCH = 100 then archProps100
  else if SM_ARCH = 350 then archProps300
  else if SM_ARCH = 210 then archProps200
  else if SM_ARCH = 130 then archProps120
  else if SM_ARCH = 110 then archProps100
  else archProps100

/-- CUB_PTX_ARCH (lines 55-61): zero during the host pass, the architecture id
of the active device pass otherwise. -/
def CUB_PTX_ARCH (cudaArch : Option Int) : Int :=
  match cudaArch with
  | none => 0
  | some a => a

/-- PtxDeviceProps (line 268): the profile statically bound for the
architecture id targeted by the active compiler pass. -/
def PtxDeviceProps (ptxArch : Int) : ArchProps :=
  ArchDeviceProps ptxArch

/-- CNP_ENABLED (line 63): ((CUB_PTX_ARCH == 0) || (CUB_PTX_ARCH >= 350)). -/
def CNP_ENABLED (ptxArch : Int) : Bool :=
  (ptxArch == 0) || decide (350 ≤ ptxArch)

/-- Alias edges declared by the inheriting specializations at lines 236-255:
350, 210, 130 and 110 each resolve to the base they derive from; base ids
resolve to themselves. -/
def resolveAlias (g : Int) : Int :=
  if g = 350 then 300
  else if g = 210 then 200
  else if g = 130 then 120
  else if g = 110 then 100
  else g

/-- Generation ids with a declared specialization in the table. -/
def knownGenerations : List Int := [100, 110, 120, 130, 200, 210, 300, 350]

/-- Generation ids of the four base (non-alias) specializations. -/
def baseGenerations : List Int := [100, 120, 200, 300]

/-- Consecutive pairs of base generation ids, in ascending order. -/
def consecutiveBasePairs : List (Int × Int) :=
  [(100, 120), (120, 200), (200, 300)]

/-- Capacity-field comparison between two profiles: fast memory bytes, bank
count, warp size, max threads per SM, max threadblocks per SM, max threads per
threadblock and max registers per SM are all no smaller on the right. -/
def capLe (a b : ArchProps) : Prop :=
  a.SMEM_BYTES ≤ b.SMEM_BYTES ∧
  a.SMEM_BANKS ≤ b.SMEM_BANKS ∧
  a.WARP_THREADS ≤ b.WARP_THREADS ∧
  a.MAX_SM_THREADS ≤ b.MAX_SM_THREADS ∧
  a.MAX_SM_THREADBLOCKS ≤ b.MAX_SM_THREADBLOCKS ∧
  a.MAX_BLOCK_THREADS ≤ b.MAX_BLOCK_THREADS ∧
  a.MAX_SM_REGISTERS ≤ b.MAX_SM_REGISTERS

instance (a b : ArchProps) : Decidable (capLe a b) := by
  unfold capLe
  infer_instance

/-- Master lemma: one dispatch call is exactly one application of the supplied
operation, at the profile described by resolvedProps. -/
theorem dispatch_eq_resolved {σ : Type} (op : ArchProps → σ → σ) (target : σ)
    (v : Int) :
    dispatch op target v = op (resolvedProps v) target := by
  unfold dispatch Callback100 Callback120 Callback200 Callback300 resolvedProps
  split_ifs <;> first | rfl | (exfalso; omega)

/-- Interval description of the resolver: ids in (100, 120] resolve to the
SM12 profile. -/
theorem resolvedProps_gt_100_le_120 (v : Int) (h1 : 100 < v) (h2 : v ≤ 120) :
    resolvedProps v = archProps120 := by
  unfold resolvedProps
  rw [if_neg (by omega), if_neg (by omega), if_pos (by omega)]

/-- Interval description of the resolver: ids in (120, 200] resolve to the
SM20 profile. -/
theorem resolvedProps_gt_120_le_200 (v : Int) (h1 : 120 < v) (h2 : v ≤ 200) :
    resolvedProps v = archProps200 := by
  unfold resolvedProps
  rw [if_neg (by omega), if_pos (by omega)]

/-- Interval description of the resolver: ids above 200 resolve to the SM30
profile. -/
theorem resolvedProps_gt_200 (v : Int) (h1 : 200 < v) :
    resolvedProps v = archProps300 := by
  unfold resolvedProps
  rw [if_pos (by omega)]

end CubArch

namespace CubArch

/-- C1 counterexample: the spec claims dispatch(150) resolves to the lower
base 120 (floor match); on the code the chain delegates upward past 120 and
stops at 200, and the 200 profile differs from the 120 profile. -/
theorem c1_floor_match_counterexample :
    dispatch (fun (p : ArchProps) (_ : ArchProps) => p) archProps100 150 =
      archProps200 ∧
    archProps200 ≠ archProps120 := by
  constructor
  · decide
  · decide

/-- C1 (amended): for every integer v strictly between two consecutive base
generation ids lo < hi, dispatch(v, op) resolves to the UPPER base hi — the
runtime resolver performs a nearest-ceiling match, e.g. dispatch(150, op)
resolves to profile 200. -/
theorem c1_between_resolves_to_upper_base {σ : Type} (op : ArchProps → σ → σ)
    (target : σ) (lo hi v : Int)
    (hmem : (lo, hi) ∈ consecutiveBasePairs) (h1 : lo < v) (h2 : v < hi) :
    dispatch op target v = op (ArchDeviceProps hi) target := by
  rw [dispatch_eq_resolved]
  simp only [consecutiveBasePairs, List.mem_cons, List.not_mem_nil, or_false,
    Prod.mk.injEq] at hmem
  rcases hmem with ⟨rfl, rfl⟩ | ⟨rfl, rfl⟩ | ⟨rfl, rfl⟩
  · rw [resolvedProps_gt_100_le_120 v (by omega) (by omega)]; rfl
  · rw [resolvedProps_gt_120_le_200 v (by omega) (by omega)]; rfl
  · rw [resolvedProps_gt_200 v (by omega)]; rfl

theorem c1_between_resolves_to_upper_base_witness :
    dispatch (fun (p : ArchProps) (_ : ArchProps) => p) archProps100 150 =
      ArchDeviceProps 200 :=
  c1_between_resolves_to_upper_base (fun p _ => p) archProps100 120 200 150
    (by decide) (by decide) (by decide)

/-- C2: a runtime id below the smallest base resolves to the baseline profile
100, and a runtime id above the largest base resolves to the newest base
profile 300; neither out-of-range input is rejected. -/
theorem c2_out_of_range_clamped {σ : Type} (op : ArchProps → σ → σ)
    (target : σ) (v : Int) :
    (v < 100 → dispatch op target v = op archProps100 target) ∧
    (v > 300 → dispatch op target v = op archProps300 target) := by
  constructor <;> intro h <;> rw [dispatch_eq_resolved] <;>
    unfold resolvedProps <;> split_ifs <;> first | rfl | (exfalso; omega)

theorem c2_out_of_range_clamped_witness :
    dispatch (fun (p : ArchProps) (_ : ArchProps) => p) archProps100 50 =
      archProps100 ∧
    dispatch (fun (p : ArchProps) (_ : ArchProps) => p) archProps100 305 =
      archProps300 := by
  constructor
  · exact (c2_out_of_range_clamped (fun p _ => p) archProps100 50).1 (by decide)
  · exact (c2_out_of_range_clamped (fun p _ => p) archProps100 305).2 (by decide)

/-- C3: dispatch at each declared base generation id 100, 120, 200, 300
resolves to exactly that base profile. -/
theorem c3_exact_base_match {σ : Type} (op : ArchProps → σ → σ) (target : σ) :
    dispatch op target 100 = op (ArchDeviceProps 100) target ∧
    dispatch op target 120 = op (ArchDeviceProps 120) target ∧
    dispatch op target 200 = op (ArchDeviceProps 200) target ∧
    dispatch op target 300 = op (ArchDeviceProps 300) target := by
  refine ⟨?_, ?_, ?_, ?_⟩ <;> rw [dispatch_eq_resolved] <;> rfl

/-- C4 counterexample: the spec claims dispatch(110) collapses the alias 110
to its base 100 before matching; on the code no alias resolution happens at
runtime — the chain delegates upward past 100 and stops at 120, whose profile
differs from the 100 profile. -/
theorem c4_alias_collapse_counterexample :
    dispatch (fun (p : ArchProps) (_ : ArchProps) => p) archProps100 110 =
      archProps120 ∧
    archProps120 ≠ archProps100 := by
  constructor
  · decide
  · decide

/-- C4 (amended): when the runtime id equals an alias identifier, the resolver
does not collapse it to its base; it applies the same upward ceiling match on
base ids, so dispatch(110) resolves to 120, dispatch(130) to 200,
dispatch(210) to 300, and dispatch(350) to 300. -/
theorem c4_alias_ids_ceiling_matched {σ : Type} (op : ArchProps → σ → σ)
    (target : σ) :
    dispatch op target 110 = op (ArchDeviceProps 120) target ∧
    dispatch op target 130 = op (ArchDeviceProps 200) target ∧
    dispatch op target 210 = op (ArchDeviceProps 300) target ∧
    dispatch op target 350 = op (ArchDeviceProps 300) target := by
  refine ⟨?_, ?_, ?_, ?_⟩ <;> rw [dispatch_eq_resolved] <;> rfl

/-- C5: dispatch is total and deterministic — for every integer runtime id the
call equals exactly one application of the supplied operation at one resolved
profile (first conjunct, for an arbitrary operation and target state), and an
instrumented operation counting its invocations is invoked exactly once
(second conjunct); no input is rejected. -/
theorem c5_total_exactly_one_invocation {σ : Type} (op : ArchProps → σ → σ)
    (target : σ) (v : Int) :
    dispatch op target v = op (resolvedProps v) target ∧
    dispatch (fun _ (n : Nat) => n + 1) 0 v = 1 := by
  refine ⟨dispatch_eq_resolved op target v, ?_⟩
  rw [dispatch_eq_resolved]

/-- C6: the compile-time selector binds the baseline profile whenever the
target indicator is 0 or matches no known generation, and binds the
alias-resolved profile of any known base or alias id. -/
theorem c6_compile_time_binding (T : Int) :
    ((T = 0 ∨ T ∉ knownGenerations) → PtxDeviceProps T = archProps100) ∧
    (T ∈ knownGenerations →
      PtxDeviceProps T = ArchDeviceProps (resolveAlias T)) := by
  constructor
  · intro h
    have hne : T ≠ 100 ∧ T ≠ 110 ∧ T ≠ 120 ∧ T ≠ 130 ∧ T ≠ 200 ∧ T ≠ 210 ∧
        T ≠ 300 ∧ T ≠ 350 := by
      rcases h with h0 | hnm
      · subst h0; decide
      · simp only [knownGenerations, List.mem_cons, List.not_mem_nil,
          or_false] at hnm
        push_neg at hnm
        exact hnm
    obtain ⟨e1, e2, e3, e4, e5, e6, e7, e8⟩ := hne
    unfold PtxDeviceProps ArchDeviceProps
    split_ifs <;> first | rfl | (exfalso; omega)
  · intro h
    fin_cases h <;> rfl

theorem c6_compile_time_binding_witness :
    PtxDeviceProps 0 = archProps100 ∧
    PtxDeviceProps 110 = ArchDeviceProps (resolveAlias 110) := by
  constructor
  · exact (c6_compile_time_binding 0).1 (Or.inl rfl)
  · exact (c6_compile_time_binding 110).2 (by decide)

/-- C7: each alias specialization (350, 210, 130, 110) carries a capability
record equal, field for field in every attribute, to its base generation
record (300, 200, 120, 100 respectively) — record equality over ArchProps is
equality of every declared attribute. -/
theorem c7_alias_records_equal_base :
    ArchDeviceProps 350 = ArchDeviceProps 300 ∧
    ArchDeviceProps 210 = ArchDeviceProps 200 ∧
    ArchDeviceProps 130 = ArchDeviceProps 120 ∧
    ArchDeviceProps 110 = ArchDeviceProps 100 := by
  refine ⟨?_, ?_, ?_, ?_⟩ <;> decide

/-- C9: for any two base generation ids A < B, every capacity field of the B
record (fast memory bytes, bank count, warp size, max threads per SM, max
threadblocks per SM, max threads per threadblock, max registers per SM) is at
least the corresponding field of the A record. -/
theorem c9_capacity_monotone (A B : Int) (hA : A ∈ baseGenerations)
    (hB : B ∈ baseGenerations) (hlt : A < B) :
    capLe (ArchDeviceProps A) (ArchDeviceProps B) := by
  fin_cases hA <;> fin_cases hB <;> first | decide | (exfalso; omega)

theorem c9_capacity_monotone_witness :
    capLe (ArchDeviceProps 100) (ArchDeviceProps 300) :=
  c9_capacity_monotone 100 300 (by decide) (by decide) (by decide)

/-- C8 counterexample: the spec claims the operation receives the raw runtime
generation id alongside the matched profile; on the code the invocation site
passes only the profile specialization, so two distinct runtime ids, 150 and
151, produce byte-identical invocation payloads — the operation cannot have
received the runtime id unchanged. -/
theorem c8_raw_id_passed_counterexample :
    dispatchTrace 150 = [archProps200] ∧
    dispatchTrace 151 = [archProps200] ∧
    (150 : Int) ≠ 151 := by
  refine ⟨?_, ?_, ?_⟩ <;> decide

/-- C8 (amended): every dispatch call invokes the operation exactly once with
only the resolved profile compile-time constants; the raw runtime generation
id is threaded through the delegation chain but is not passed to the
operation. -/
theorem c8_invocation_carries_profile_only (v : Int) :
    dispatchTrace v = [resolvedProps v] := by
  unfold dispatchTrace
  rw [dispatch_eq_resolved]
  simp

/-- C10: CNP_ENABLED is true exactly when the compile-time architecture
indicator is 0 (host pass) or at least 350, and false for every device target
strictly below 350. -/
theorem c10_cnp_enabled_iff (ptxArch : Int) :
    (CNP_ENABLED ptxArch = true ↔ (ptxArch = 0 ∨ 350 ≤ ptxArch)) ∧
    (0 < ptxArch → ptxArch < 350 → CNP_ENABLED ptxArch = false) := by
  unfold CNP_ENABLED
  constructor
  · simp
  · intro h1 h2
    simp only [Bool.or_eq_false_iff, beq_eq_false_iff_ne, ne_eq,
      decide_eq_false_iff_not, not_le]
    omega

theorem c10_cnp_enabled_iff_witness :
    CNP_ENABLED 350 = true ∧ CNP_ENABLED 100 = false := by
  constructor
  · exact (c10_cnp_enabled_iff 350).1.mpr (Or.inr (by decide))
  · exact (c10_cnp_enabled_iff 100).2 (by decide) (by decide)

end CubArch
